import Mathlib

/-!
Shallow embedding of the redsumer-rs consumer-side stream client
(`src/redsumer-rs/src/core/streams/consumer.rs` and
`src/redsumer-rs/src/redsumer/consumer.rs`).

The backing service (Redis) is external to the repository: it is modelled
as a connection reply model `Conn`, a family of functions giving the reply
to each command the client may issue.  Every adapter verb returns, next to
its `Except` result, the list of commands it issued to the connection, so
that claims about "no server round-trip" and phase ordering are statable.
-/

namespace Redsumer

/-- An entry of a stream: identifier plus field/value map
(`redis::streams::StreamId`). Field values are opaque scalars, modelled as
strings. -/
structure StreamId where
  id : String
  map : List (String × String)
deriving DecidableEq

/-- One key's portion of an XREADGROUP reply (`redis::streams::StreamKey`). -/
structure StreamKey where
  key : String
  ids : List StreamId
deriving DecidableEq

/-- Reply to XREADGROUP (`redis::streams::StreamReadReply`). -/
structure StreamReadReply where
  keys : List StreamKey
deriving DecidableEq

/-- Reply to XAUTOCLAIM (`redis::streams::StreamAutoClaimReply`); the
`deleted_ids` component is never consulted by the client and is omitted. -/
structure StreamAutoClaimReply where
  next_stream_id : String
  claimed : List StreamId
deriving DecidableEq

/-- One pending-entry record of an XPENDING reply
(`redis::streams::StreamPendingId`). -/
structure StreamPendingId where
  id : String
  consumer : String
  last_delivered_ms : Nat
  times_delivered : Nat
deriving DecidableEq

/-- Reply to the consumer-scoped XPENDING range query
(`redis::streams::StreamPendingCountReply`). -/
structure StreamPendingCountReply where
  ids : List StreamPendingId
deriving DecidableEq

/-- Error kinds used by the embedded client (`redis::ErrorKind`). -/
inductive ErrorKind
  | ClientError
  | ResponseError
  | IoError
  | TypeError
deriving DecidableEq

/-- `redis::RedisError`: a kind plus the detail text the `Display`
implementation renders (the client only inspects the rendered text for the
BUSYGROUP signal). -/
structure RedisError where
  kind : ErrorKind
  detail : String
deriving DecidableEq

/-- The rendered error text inspected by `e.to_string()` in the source. -/
def RedisError.toStr (e : RedisError) : String := e.detail

/-- `RedsumerResult<T> = Result<T, RedisError>`. -/
abbrev RedsumerResult (α : Type) := Except RedisError α

instance {α : Type} [DecidableEq α] : DecidableEq (RedsumerResult α)
  | .ok a, .ok b =>
      if h : a = b then .isTrue (by rw [h]) else .isFalse (by simp [h])
  | .ok _, .error _ => .isFalse (by simp)
  | .error _, .ok _ => .isFalse (by simp)
  | .error e, .error f =>
      if h : e = f then .isTrue (by rw [h]) else .isFalse (by simp [h])

/-- `str::contains` on strings, as used for the BUSYGROUP check. -/
def strContains (s pat : String) : Bool := decide (pat.toList <:+: s.toList)

/-- `BEGINNING_OF_TIME_ID`. -/
def BEGINNING_OF_TIME_ID : String := "0-0"

/-- The commands the client can issue over the connection, with the
arguments the source passes. -/
inductive Command
  | xreadgroup_new (key group consumer : String) (count block : Nat)
  | xreadgroup_from (key group consumer cursor : String) (count : Nat)
  | xautoclaim (key group consumer : String) (min_idle_time : Nat) (cursor : String) (count : Nat)
  | xpending (key group start_id end_id : String) (count : Nat) (consumer : String)
  | xack (key group id : String)
  | xgroup_create (key group since_id : String)
  | key_exists (key : String)
deriving DecidableEq

/-- A connection reply model: for each command shape, the reply the backing
service would produce.  This is the external collaborator of the client. -/
structure Conn where
  xread_new : String → String → String → Nat → Nat → RedsumerResult StreamReadReply
  xread_from : String → String → String → String → Nat → RedsumerResult StreamReadReply
  xautoclaim : String → String → String → Nat → String → Nat → RedsumerResult StreamAutoClaimReply
  xpending : String → String → String → String → Nat → String → RedsumerResult StreamPendingCountReply
  xack : String → String → String → RedsumerResult Bool
  xgroup_create : String → String → String → RedsumerResult String
  key_exists : String → RedsumerResult Bool

/-- `UnwrapStreamReadReply::unwrap_by_key`: keep, in reply order, the
entries listed under the requested key; entries under any other key are
dropped (the source emits a warning for them). -/
def StreamReadReply.unwrap_by_key (self : StreamReadReply) (key : String) : List StreamId :=
  (self.keys.filter (fun stream => stream.key = key)).flatMap (fun stream => stream.ids)

/-- `verify_if_stream_exists`: EXISTS on the key; a missing stream and a
failing query are both turned into locally built `ClientError`s. -/
def verify_if_stream_exists (conn : Conn) (key : String) :
    List Command × RedsumerResult Unit :=
  ([Command.key_exists key],
    match conn.key_exists key with
    | .ok true => .ok ()
    | .ok false => .error ⟨ErrorKind.ClientError, "Stream does not exist"⟩
    | .error _ => .error ⟨ErrorKind.ClientError, "Error verifying if stream exists"⟩)

/-- `create_consumer_group`: XGROUP CREATE; an error whose rendered text
contains "BUSYGROUP" is normalized to `Ok(false)`, any other error
propagates. -/
def create_consumer_group (conn : Conn) (key group since_id : String) :
    List Command × RedsumerResult Bool :=
  ([Command.xgroup_create key group since_id],
    match conn.xgroup_create key group since_id with
    | .ok _ => .ok true
    | .error e =>
        if strContains e.toStr "BUSYGROUP" then .ok false
        else .error e)

/-- `read_new_messages`: when `count > 0`, XREADGROUP with the `>` cursor,
unwrapped by key; when `count == 0`, an empty batch with no command issued. -/
def read_new_messages (conn : Conn) (key group consumer : String) (count block : Nat) :
    List Command × RedsumerResult (List StreamId) :=
  if count > 0 then
    ([Command.xreadgroup_new key group consumer count block],
      match conn.xread_new key group consumer count block with
      | .ok reply => .ok (reply.unwrap_by_key key)
      | .error e => .error e)
  else
    ([], .ok [])

/-- `read_pending_messages`: when `count > 0`, XREADGROUP from the stored
cursor; the returned cursor is the id of the last returned entry, or
`0-0` on an empty batch.  When `count == 0`, `(empty, 0-0)` with no
command issued. -/
def read_pending_messages (conn : Conn) (key group consumer : String)
    (latest_pending_message_id : String) (count : Nat) :
    List Command × RedsumerResult (List StreamId × String) :=
  if count > 0 then
    ([Command.xreadgroup_from key group consumer latest_pending_message_id count],
      match conn.xread_from key group consumer latest_pending_message_id count with
      | .ok reply =>
          let pending_messages := reply.unwrap_by_key key
          let latest : String :=
            match pending_messages.getLast? with
            | some s => s.id
            | none => BEGINNING_OF_TIME_ID
          .ok (pending_messages, latest)
      | .error e => .error e)
  else
    ([], .ok ([], BEGINNING_OF_TIME_ID))

/-- `claim_pending_messages`: when `count > 0`, XAUTOCLAIM from the stored
cursor, returning the claimed entries and the server's next-scan cursor.
When `count == 0`, `(empty, 0-0)` with no command issued. -/
def claim_pending_messages (conn : Conn) (key group consumer : String)
    (min_idle_time : Nat) (next_id_to_claim : String) (count : Nat) :
    List Command × RedsumerResult (List StreamId × String) :=
  if count > 0 then
    ([Command.xautoclaim key group consumer min_idle_time next_id_to_claim count],
      match conn.xautoclaim key group consumer min_idle_time next_id_to_claim count with
      | .ok reply => .ok (reply.claimed, reply.next_stream_id)
      | .error e => .error e)
  else
    ([], .ok ([], BEGINNING_OF_TIME_ID))

/-- `is_still_mine` (core verb): a one-entry consumer-scoped XPENDING range
query `[id, id]`; true iff the returned slice is non-empty. -/
def is_still_mine (conn : Conn) (key group consumer id : String) :
    List Command × RedsumerResult Bool :=
  ([Command.xpending key group id id 1 consumer],
    match conn.xpending key group id id 1 consumer with
    | .ok r => .ok (r.ids.length > 0)
    | .error e => .error e)

/-- `ack` (core verb): XACK of one id; the boolean reply is passed through. -/
def ack (conn : Conn) (key group id : String) :
    List Command × RedsumerResult Bool :=
  ([Command.xack key group id],
    match conn.xack key group id with
    | .ok b => .ok b
    | .error e => .error e)

/-- `ReadNewMessagesOptions`. -/
structure ReadNewMessagesOptions where
  count : Nat
  block : Nat
deriving DecidableEq

/-- `ReadPendingMessagesOptions`: the count plus the hidden pending
cursor, seeded at `0-0` by `ReadPendingMessagesOptions::new`. -/
structure ReadPendingMessagesOptions where
  count : Nat
  latest_pending_message_id : String
deriving DecidableEq

/-- `ReadPendingMessagesOptions::new`. -/
def ReadPendingMessagesOptions.new (count : Nat) : ReadPendingMessagesOptions :=
  ⟨count, BEGINNING_OF_TIME_ID⟩

/-- `ClaimMessagesOptions`: count, min idle time, and the hidden claim
cursor, seeded at `0-0` by `ClaimMessagesOptions::new`. -/
structure ClaimMessagesOptions where
  count : Nat
  min_idle_time : Nat
  next_id_to_claim : String
deriving DecidableEq

/-- `ClaimMessagesOptions::new`. -/
def ClaimMessagesOptions.new (count min_idle_time : Nat) : ClaimMessagesOptions :=
  ⟨count, min_idle_time, BEGINNING_OF_TIME_ID⟩

/-- `ConsumerConfig`. -/
structure ConsumerConfig where
  stream_name : String
  group_name : String
  consumer_name : String
  read_new_messages_options : ReadNewMessagesOptions
  read_pending_messages_options : ReadPendingMessagesOptions
  claim_messages_options : ClaimMessagesOptions
deriving DecidableEq

/-- `MessagesKind`: the tag carried by a consume reply. -/
inductive MessagesKind
  | New
  | Pending
  | Claimed
  | NotFound
deriving DecidableEq

/-- `MessagesKind::are_new`. -/
def MessagesKind.are_new : MessagesKind → Bool
  | .New => true
  | _ => false

/-- `MessagesKind::are_pending`. -/
def MessagesKind.are_pending : MessagesKind → Bool
  | .Pending => true
  | _ => false

/-- `MessagesKind::were_claimed`. -/
def MessagesKind.were_claimed : MessagesKind → Bool
  | .Claimed => true
  | _ => false

/-- `MessagesKind::not_found`. -/
def MessagesKind.not_found : MessagesKind → Bool
  | .NotFound => true
  | _ => false

/-- `ConsumeMessagesReply`: batch plus tag. -/
structure ConsumeMessagesReply where
  messages : List StreamId
  kind : MessagesKind
deriving DecidableEq

/-- `ConsumeMessagesReply::are_new`. -/
def ConsumeMessagesReply.are_new (r : ConsumeMessagesReply) : Bool := r.kind.are_new

/-- `ConsumeMessagesReply::are_pending`. -/
def ConsumeMessagesReply.are_pending (r : ConsumeMessagesReply) : Bool := r.kind.are_pending

/-- `ConsumeMessagesReply::were_claimed`. -/
def ConsumeMessagesReply.were_claimed (r : ConsumeMessagesReply) : Bool := r.kind.were_claimed

/-- `ConsumeMessagesReply::not_found`. -/
def ConsumeMessagesReply.not_found (r : ConsumeMessagesReply) : Bool := r.kind.not_found

/-- `IsStillMineReply`. -/
structure IsStillMineReply where
  is_still_mine : Bool
  last_delivered_milliseconds : Option Nat
  total_times_delivered : Option Nat
deriving DecidableEq

/-- `IsStillMineReply::belongs_to_me`. -/
def IsStillMineReply.belongs_to_me (r : IsStillMineReply) : Bool := r.is_still_mine

/-- `AckMessageReply`. -/
structure AckMessageReply where
  was_acked : Bool
deriving DecidableEq

/-- `Consumer`: the connection handle is passed explicitly to each
operation, so the instance state is its configuration (which carries the
two cursors). -/
structure Consumer where
  config : ConsumerConfig
deriving DecidableEq

/-- `Consumer::update_latest_pending_message_id`. -/
def Consumer.update_latest_pending_message_id (c : Consumer) (id : String) : Consumer :=
  { c with config := { c.config with read_pending_messages_options :=
      { c.config.read_pending_messages_options with latest_pending_message_id := id } } }

/-- `Consumer::update_next_id_to_claim`. -/
def Consumer.update_next_id_to_claim (c : Consumer) (id : String) : Consumer :=
  { c with config := { c.config with claim_messages_options :=
      { c.config.claim_messages_options with next_id_to_claim := id } } }

/-- Phase N of `Consumer::consume`: the `read_new_messages` invocation
with the configured arguments. -/
def phaseN (c : Consumer) (conn : Conn) :
    List Command × RedsumerResult (List StreamId) :=
  read_new_messages conn c.config.stream_name c.config.group_name c.config.consumer_name
    c.config.read_new_messages_options.count c.config.read_new_messages_options.block

/-- Phase P of `Consumer::consume`: the `read_pending_messages` invocation
with the configured arguments and the stored pending cursor. -/
def phaseP (c : Consumer) (conn : Conn) :
    List Command × RedsumerResult (List StreamId × String) :=
  read_pending_messages conn c.config.stream_name c.config.group_name c.config.consumer_name
    c.config.read_pending_messages_options.latest_pending_message_id
    c.config.read_pending_messages_options.count

/-- Phase C of `Consumer::consume`: the `claim_pending_messages`
invocation with the configured arguments and the stored claim cursor. -/
def phaseC (c : Consumer) (conn : Conn) :
    List Command × RedsumerResult (List StreamId × String) :=
  claim_pending_messages conn c.config.stream_name c.config.group_name c.config.consumer_name
    c.config.claim_messages_options.min_idle_time
    c.config.claim_messages_options.next_id_to_claim
    c.config.claim_messages_options.count

/-- `Consumer::consume`: Phase N (new), then Phase P (own pending replay,
cursor updated from the verb's returned cursor), then Phase C (autoclaim,
cursor updated from the server's next-scan cursor); the first non-empty
batch is returned with its tag, otherwise an empty `NotFound` reply. -/
def Consumer.consume (c : Consumer) (conn : Conn) :
    List Command × RedsumerResult (ConsumeMessagesReply × Consumer) :=
  match (phaseN c conn).2 with
  | .error e => ((phaseN c conn).1, .error e)
  | .ok new_messages =>
    if new_messages.length > 0 then
      ((phaseN c conn).1, .ok (⟨new_messages, MessagesKind.New⟩, c))
    else
      match (phaseP c conn).2 with
      | .error e => ((phaseN c conn).1 ++ (phaseP c conn).1, .error e)
      | .ok (pending_messages, latest_pending_message_id) =>
        if pending_messages.length > 0 then
          ((phaseN c conn).1 ++ (phaseP c conn).1,
            .ok (⟨pending_messages, MessagesKind.Pending⟩,
              c.update_latest_pending_message_id latest_pending_message_id))
        else
          match (phaseC (c.update_latest_pending_message_id latest_pending_message_id) conn).2 with
          | .error e =>
              ((phaseN c conn).1 ++ (phaseP c conn).1 ++
                (phaseC (c.update_latest_pending_message_id latest_pending_message_id) conn).1,
                .error e)
          | .ok (claimed_messages, next_id_to_claim) =>
            if claimed_messages.length > 0 then
              ((phaseN c conn).1 ++ (phaseP c conn).1 ++
                (phaseC (c.update_latest_pending_message_id latest_pending_message_id) conn).1,
                .ok (⟨claimed_messages, MessagesKind.Claimed⟩,
                  (c.update_latest_pending_message_id
                    latest_pending_message_id).update_next_id_to_claim next_id_to_claim))
            else
              ((phaseN c conn).1 ++ (phaseP c conn).1 ++
                (phaseC (c.update_latest_pending_message_id latest_pending_message_id) conn).1,
                .ok (⟨[], MessagesKind.NotFound⟩,
                  (c.update_latest_pending_message_id
                    latest_pending_message_id).update_next_id_to_claim next_id_to_claim))

/-- `Consumer::is_still_mine`: the core verb's boolean, wrapped into the
reply record.  The source maps the plain boolean through the reply
constructor; the two optional fields are absent in that conversion. -/
def Consumer.is_still_mine (c : Consumer) (conn : Conn) (id : String) :
    List Command × RedsumerResult IsStillMineReply :=
  let r := Redsumer.is_still_mine conn c.config.stream_name c.config.group_name
      c.config.consumer_name id
  (r.1,
    match r.2 with
    | .ok b => .ok ⟨b, none, none⟩
    | .error e => .error e)

/-- `Consumer::ack`: the core verb's boolean, wrapped into `AckMessageReply`. -/
def Consumer.ack (c : Consumer) (conn : Conn) (id : String) :
    List Command × RedsumerResult AckMessageReply :=
  let r := Redsumer.ack conn c.config.stream_name c.config.group_name id
  (r.1,
    match r.2 with
    | .ok b => .ok ⟨b⟩
    | .error e => .error e)

/-! ### Stream identifiers

Identifiers have the bit-exact form `<u64>-<u64>`; the backing service
compares them numerically, millisecond part first. -/

/-- Split a character list at each dash. -/
def splitDash : List Char → List (List Char)
  | [] => [[]]
  | c :: rest =>
      if c = '-' then [] :: splitDash rest
      else
        match splitDash rest with
        | h :: t => (c :: h) :: t
        | [] => [[c]]

/-- The numeric value of a decimal digit character. -/
def digitVal? (ch : Char) : Option Nat :=
  if ch = '0' then some 0 else if ch = '1' then some 1 else if ch = '2' then some 2
  else if ch = '3' then some 3 else if ch = '4' then some 4 else if ch = '5' then some 5
  else if ch = '6' then some 6 else if ch = '7' then some 7 else if ch = '8' then some 8
  else if ch = '9' then some 9 else none

/-- Parse a non-empty decimal digit string. -/
def digitsToNat? (cs : List Char) : Option Nat :=
  match cs with
  | [] => none
  | _ =>
      cs.foldl (fun acc ch =>
        match acc, digitVal? ch with
        | some n, some d => some (n * 10 + d)
        | _, _ => none) (some 0)

/-- Parse an identifier `<ms>-<seq>`; `none` on any malformed string. -/
def parseStreamId (s : String) : Option (Nat × Nat) :=
  match splitDash s.toList with
  | [ms, seq] =>
    match digitsToNat? ms, digitsToNat? seq with
    | some m, some q => some (m, q)
    | _, _ => none
  | _ => none

/-- Numeric order on parsed identifiers: millisecond part first, then
sequence part. -/
def idPairLe (a b : Nat × Nat) : Bool :=
  decide (a.1 < b.1 ∨ (a.1 = b.1 ∧ a.2 ≤ b.2))

/-- Strict numeric order on identifier strings; malformed identifiers are
not comparable. -/
def idLt (a b : String) : Bool :=
  match parseStreamId a, parseStreamId b with
  | some x, some y => decide (x.1 < y.1 ∨ (x.1 = y.1 ∧ x.2 < y.2))
  | _, _ => false

/-! ### Server model

The backing service is outside the repository; claims about ack and
ownership posit a server whose acknowledgement removes the entry from the
pending-entries list.  The model below implements that PEL discipline
(XACK removes the group's PEL entry for the id and replies with the number
removed; the consumer-scoped XPENDING range query returns the consumer's
PEL entries in the numeric id range). -/

/-- One pending-entries-list record of the modelled server. -/
structure PelRec where
  key : String
  group : String
  consumer : String
  id : String
  idle_ms : Nat
  times_delivered : Nat
deriving DecidableEq

/-- The modelled server state: the pending-entries lists of all groups. -/
structure ServerState where
  pel : List PelRec
deriving DecidableEq

/-- Whether a PEL record is the one XACK on `(k, g, v)` removes. -/
def pelAckMatch (k g : String) (v : Nat × Nat) (r : PelRec) : Bool :=
  decide (r.key = k ∧ r.group = g ∧ parseStreamId r.id = some v)

/-- How many PEL entries the modelled XACK on `id` removes. -/
def serverAckCount (s : ServerState) (k g id : String) : Nat :=
  match parseStreamId id with
  | some v => (s.pel.filter (pelAckMatch k g v)).length
  | none => 0

/-- The server state after the modelled XACK on `id`. -/
def serverAfterAck (s : ServerState) (k g id : String) : ServerState :=
  match parseStreamId id with
  | some v => ⟨s.pel.filter (fun r => !(pelAckMatch k g v r))⟩
  | none => s

/-- The modelled XACK reply: the count of removed entries, converted to a
boolean the way the client's reply decoding does (non-zero means true). -/
def serverXackReply (s : ServerState) (k g id : String) : RedsumerResult Bool :=
  match parseStreamId id with
  | some _ => .ok (decide (serverAckCount s k g id ≠ 0))
  | none => .error ⟨ErrorKind.ResponseError, "ERR Invalid stream ID specified as stream command argument"⟩

/-- Whether a PEL record is in the consumer-scoped XPENDING range. -/
def pelInRange (k g consumer : String) (a b : Nat × Nat) (r : PelRec) : Bool :=
  decide (r.key = k ∧ r.group = g ∧ r.consumer = consumer) &&
    (match parseStreamId r.id with
     | some v => idPairLe a v && idPairLe v b
     | none => false)

/-- The modelled consumer-scoped XPENDING range reply. -/
def serverXpendingReply (s : ServerState) (k g start_id end_id : String)
    (count : Nat) (consumer : String) : RedsumerResult StreamPendingCountReply :=
  match parseStreamId start_id, parseStreamId end_id with
  | some a, some b =>
      .ok ⟨((s.pel.filter (pelInRange k g consumer a b)).take count).map
        (fun r => ⟨r.id, r.consumer, r.idle_ms, r.times_delivered⟩)⟩
  | _, _ => .error ⟨ErrorKind.ResponseError, "ERR Invalid stream ID specified as stream command argument"⟩

/-- The connection reply model induced by a modelled server state.  Only
the XACK and XPENDING verbs consult the state; the others answer with
empty successes (they are irrelevant to the ack/ownership claims). -/
def connOfServer (s : ServerState) : Conn where
  xread_new := fun _ _ _ _ _ => .ok ⟨[]⟩
  xread_from := fun _ _ _ _ _ => .ok ⟨[]⟩
  xautoclaim := fun _ _ _ _ _ _ => .ok ⟨BEGINNING_OF_TIME_ID, []⟩
  xpending := fun k g st en cnt cons => serverXpendingReply s k g st en cnt cons
  xack := fun k g id => serverXackReply s k g id
  xgroup_create := fun _ _ _ => .ok "OK"
  key_exists := fun _ => .ok true

/-- A well-formed server state: every PEL id parses, and no two PEL
records of the same key and group carry the same numeric id. -/
def ServerState.wf (s : ServerState) : Prop :=
  (∀ r ∈ s.pel, (parseStreamId r.id).isSome = true) ∧
    s.pel.Pairwise (fun r₁ r₂ =>
      ¬(r₁.key = r₂.key ∧ r₁.group = r₂.group ∧ parseStreamId r₁.id = parseStreamId r₂.id))

/-! ### Basic lemmas -/

theorem update_latest_pending_cursor_eq (c : Consumer) (id : String) :
    (c.update_latest_pending_message_id id).config.read_pending_messages_options.latest_pending_message_id = id := rfl

theorem update_next_claim_cursor_eq (c : Consumer) (id : String) :
    (c.update_next_id_to_claim id).config.claim_messages_options.next_id_to_claim = id := rfl

theorem update_next_preserves_pending_cursor (c : Consumer) (id : String) :
    (c.update_next_id_to_claim id).config.read_pending_messages_options.latest_pending_message_id
      = c.config.read_pending_messages_options.latest_pending_message_id := rfl

theorem update_latest_preserves_claim_cursor (c : Consumer) (id : String) :
    (c.update_latest_pending_message_id id).config.claim_messages_options.next_id_to_claim
      = c.config.claim_messages_options.next_id_to_claim := rfl

theorem phaseC_update_latest (c : Consumer) (conn : Conn) (id : String) :
    phaseC (c.update_latest_pending_message_id id) conn = phaseC c conn := rfl

/-- Every entry produced by `unwrap_by_key` is listed, in the reply, under
a stream key equal to the requested one. -/
theorem mem_unwrap_by_key {r : StreamReadReply} {key : String} {sid : StreamId}
    (h : sid ∈ r.unwrap_by_key key) :
    ∃ g ∈ r.keys, g.key = key ∧ sid ∈ g.ids := by
  simp only [StreamReadReply.unwrap_by_key, List.mem_flatMap, List.mem_filter,
    decide_eq_true_eq] at h
  obtain ⟨g, ⟨hg, hk⟩, hs⟩ := h
  exact ⟨g, hg, hk, hs⟩

/-- Characterization of a successful `read_new_messages` call. -/
theorem read_new_messages_ok {conn : Conn} {k g n : String} {cnt blk : Nat}
    {batch : List StreamId}
    (h : (read_new_messages conn k g n cnt blk).2 = .ok batch) :
    (cnt = 0 ∧ batch = []) ∨
      ∃ rr, conn.xread_new k g n cnt blk = .ok rr ∧ batch = rr.unwrap_by_key k := by
  by_cases hc : cnt > 0
  · right
    simp only [read_new_messages, if_pos hc] at h
    cases hx : conn.xread_new k g n cnt blk <;> rw [hx] at h <;> simp_all
  · left
    simp only [read_new_messages, if_neg hc] at h
    exact ⟨by omega, by simp_all⟩

/-- Characterization of a successful `read_pending_messages` call: where
the batch comes from, and the returned cursor's relation to the batch. -/
theorem read_pending_messages_ok {conn : Conn} {k g n cur : String} {cnt : Nat}
    {batch : List StreamId} {lp : String}
    (h : (read_pending_messages conn k g n cur cnt).2 = .ok (batch, lp)) :
    ((cnt = 0 ∧ batch = []) ∨
      ∃ rr, conn.xread_from k g n cur cnt = .ok rr ∧ batch = rr.unwrap_by_key k) ∧
    ((batch = [] ∧ lp = BEGINNING_OF_TIME_ID) ∨
      ∃ last, batch.getLast? = some last ∧ lp = last.id) := by
  by_cases hc : cnt > 0
  · simp only [read_pending_messages, if_pos hc] at h
    rcases hx : conn.xread_from k g n cur cnt with e | rr <;> rw [hx] at h <;> dsimp only at h
    · simp at h
    · simp only [Except.ok.injEq, Prod.mk.injEq] at h
      obtain ⟨hb, hl⟩ := h
      refine ⟨Or.inr ⟨rr, rfl, hb.symm⟩, ?_⟩
      rcases hlast : (rr.unwrap_by_key k).getLast? with _ | last <;> rw [hlast] at hl <;>
        dsimp only at hl
      · left
        rw [List.getLast?_eq_none_iff] at hlast
        exact ⟨hb ▸ hlast, hl.symm⟩
      · right
        exact ⟨last, hb ▸ hlast, hl.symm⟩
  · simp only [read_pending_messages, if_neg hc] at h
    simp only [Except.ok.injEq, Prod.mk.injEq] at h
    exact ⟨Or.inl ⟨by omega, h.1.symm⟩, Or.inl ⟨h.1.symm, h.2.symm⟩⟩

/-- Characterization of a successful `claim_pending_messages` call. -/
theorem claim_pending_messages_ok {conn : Conn} {k g n cur : String} {mit cnt : Nat}
    {batch : List StreamId} {nc : String}
    (h : (claim_pending_messages conn k g n mit cur cnt).2 = .ok (batch, nc)) :
    (cnt = 0 ∧ batch = [] ∧ nc = BEGINNING_OF_TIME_ID) ∨
      ∃ ar, conn.xautoclaim k g n mit cur cnt = .ok ar ∧
        batch = ar.claimed ∧ nc = ar.next_stream_id := by
  by_cases hc : cnt > 0
  · right
    simp only [claim_pending_messages, if_pos hc] at h
    cases hx : conn.xautoclaim k g n mit cur cnt <;> rw [hx] at h <;> simp_all
  · left
    simp only [claim_pending_messages, if_neg hc] at h
    simp only [Except.ok.injEq, Prod.mk.injEq] at h
    exact ⟨by omega, h.1.symm, h.2.symm⟩

/-- The phase-by-phase specification of a successful `consume`: exactly
one of the four cases holds, each recording which phases ran (through the
issued-command trace), the returned tag and batch, and the updated
consumer state. -/
def ConsumePhaseSpec (c : Consumer) (conn : Conn) (tr : List Command)
    (reply : ConsumeMessagesReply) (c' : Consumer) : Prop :=
  (∃ batchN, (phaseN c conn).2 = .ok batchN ∧ batchN ≠ [] ∧
      tr = (phaseN c conn).1 ∧ reply = ⟨batchN, MessagesKind.New⟩ ∧ c' = c)
  ∨ (∃ batchP lp, (phaseN c conn).2 = .ok [] ∧ (phaseP c conn).2 = .ok (batchP, lp) ∧
      batchP ≠ [] ∧ tr = (phaseN c conn).1 ++ (phaseP c conn).1 ∧
      reply = ⟨batchP, MessagesKind.Pending⟩ ∧ c' = c.update_latest_pending_message_id lp)
  ∨ (∃ lp batchC nc, (phaseN c conn).2 = .ok [] ∧ (phaseP c conn).2 = .ok ([], lp) ∧
      (phaseC c conn).2 = .ok (batchC, nc) ∧ batchC ≠ [] ∧
      tr = (phaseN c conn).1 ++ (phaseP c conn).1 ++ (phaseC c conn).1 ∧
      reply = ⟨batchC, MessagesKind.Claimed⟩ ∧
      c' = (c.update_latest_pending_message_id lp).update_next_id_to_claim nc)
  ∨ (∃ lp nc, (phaseN c conn).2 = .ok [] ∧ (phaseP c conn).2 = .ok ([], lp) ∧
      (phaseC c conn).2 = .ok ([], nc) ∧
      tr = (phaseN c conn).1 ++ (phaseP c conn).1 ++ (phaseC c conn).1 ∧
      reply = ⟨[], MessagesKind.NotFound⟩ ∧
      c' = (c.update_latest_pending_message_id lp).update_next_id_to_claim nc)

/-- A successful `consume` satisfies the phase-by-phase specification. -/
theorem consume_cases {c : Consumer} {conn : Conn} {tr : List Command}
    {reply : ConsumeMessagesReply} {c' : Consumer}
    (h : c.consume conn = (tr, .ok (reply, c'))) :
    ConsumePhaseSpec c conn tr reply c' := by
  unfold Consumer.consume at h
  rcases hN : (phaseN c conn).2 with eN | batchN <;> rw [hN] at h <;> dsimp only at h
  · simp at h
  · by_cases hNe : batchN.length > 0
    · rw [if_pos hNe] at h
      simp only [Prod.mk.injEq, Except.ok.injEq] at h
      obtain ⟨htr, hr, hc⟩ := h
      exact Or.inl ⟨batchN, hN, by simpa using List.length_pos.mp hNe,
        htr.symm, hr.symm, hc.symm⟩
    · rw [if_neg hNe] at h
      have hN0 : batchN = [] := by simpa using hNe
      subst hN0
      rcases hP : (phaseP c conn).2 with eP | ⟨batchP, lp⟩ <;> rw [hP] at h <;> dsimp only at h
      · simp at h
      · by_cases hPe : batchP.length > 0
        · rw [if_pos hPe] at h
          simp only [Prod.mk.injEq, Except.ok.injEq] at h
          obtain ⟨htr, hr, hc⟩ := h
          exact Or.inr (Or.inl ⟨batchP, lp, hN, hP,
            by simpa using List.length_pos.mp hPe, htr.symm, hr.symm, hc.symm⟩)
        · rw [if_neg hPe] at h
          have hP0 : batchP = [] := by simpa using hPe
          subst hP0
          rw [phaseC_update_latest] at h
          rcases hC : (phaseC c conn).2 with eC | ⟨batchC, nc⟩ <;> rw [hC] at h <;>
            dsimp only at h
          · simp at h
          · by_cases hCe : batchC.length > 0
            · rw [if_pos hCe] at h
              simp only [Prod.mk.injEq, Except.ok.injEq] at h
              obtain ⟨htr, hr, hc⟩ := h
              exact Or.inr (Or.inr (Or.inl ⟨lp, batchC, nc, hN, hP, hC,
                by simpa using List.length_pos.mp hCe, htr.symm, hr.symm, hc.symm⟩))
            · rw [if_neg hCe] at h
              have hC0 : batchC = [] := by simpa using hCe
              subst hC0
              simp only [Prod.mk.injEq, Except.ok.injEq] at h
              obtain ⟨htr, hr, hc⟩ := h
              exact Or.inr (Or.inr (Or.inr ⟨lp, nc, hN, hP, hC,
                htr.symm, hr.symm, hc.symm⟩))

/-! ### Concrete instances used by witnesses and counterexamples -/

/-- A reply model answering every read with an empty success. -/
def connEmpty : Conn where
  xread_new := fun _ _ _ _ _ => .ok ⟨[]⟩
  xread_from := fun _ _ _ _ _ => .ok ⟨[]⟩
  xautoclaim := fun _ _ _ _ _ _ => .ok ⟨BEGINNING_OF_TIME_ID, []⟩
  xpending := fun _ _ _ _ _ _ => .ok ⟨[]⟩
  xack := fun _ _ _ => .ok true
  xgroup_create := fun _ _ _ => .ok "OK"
  key_exists := fun _ => .ok true

/-- A consumer with count 1 in every phase and both cursors at `0-0`. -/
def consumer1 : Consumer :=
  ⟨⟨"my-stream", "my-group", "my-consumer", ⟨1, 0⟩, ⟨1, "0-0"⟩, ⟨1, 0, "0-0"⟩⟩⟩

/-- A consumer with count 0 in every phase and arbitrary cursor values. -/
def consumer0 : Consumer :=
  ⟨⟨"my-stream", "my-group", "my-consumer", ⟨0, 5⟩, ⟨0, "3-3"⟩, ⟨0, 7, "4-4"⟩⟩⟩

/-- A reply model whose new-messages reply lists entries under the
configured stream key and under a foreign key. -/
def connNew : Conn :=
  { connEmpty with
    xread_new := fun _ _ _ _ _ =>
      .ok ⟨[⟨"my-stream", [⟨"1-0", [("code", "1")]⟩]⟩,
            ⟨"fake-key", [⟨"666-0", [("code", "666")]⟩]⟩]⟩ }

/-- A reply model driving the cursor-monotonicity counterexample: the
pending read moves `0-0 ↦ 5-5 ↦ 2-2`, the auto-claim scan cursor moves
`0-0 ↦ 7-7 ↦ 1-1`. -/
def connBackward : Conn :=
  { connEmpty with
    xread_from := fun _ _ _ cursor _ =>
      if cursor = "0-0" then .ok ⟨[⟨"my-stream", [⟨"5-5", []⟩]⟩]⟩
      else if cursor = "5-5" then .ok ⟨[⟨"my-stream", [⟨"2-2", []⟩]⟩]⟩
      else .ok ⟨[]⟩
    xautoclaim := fun _ _ _ _ cursor _ =>
      if cursor = "0-0" then .ok ⟨"7-7", []⟩ else .ok ⟨"1-1", []⟩ }

/-- Consumers for the pending-cursor scenario: Phase N disabled, Phase P
enabled; cursor after zero, one and two calls. -/
def consumerA0 : Consumer :=
  ⟨⟨"my-stream", "g", "c1", ⟨0, 0⟩, ⟨1, "0-0"⟩, ⟨1, 0, "0-0"⟩⟩⟩

def consumerA1 : Consumer :=
  ⟨⟨"my-stream", "g", "c1", ⟨0, 0⟩, ⟨1, "5-5"⟩, ⟨1, 0, "0-0"⟩⟩⟩

def consumerA2 : Consumer :=
  ⟨⟨"my-stream", "g", "c1", ⟨0, 0⟩, ⟨1, "2-2"⟩, ⟨1, 0, "0-0"⟩⟩⟩

/-- Consumers for the claim-cursor scenario: Phases N and P disabled,
Phase C enabled; cursor after zero, one and two calls. -/
def consumerB0 : Consumer :=
  ⟨⟨"my-stream", "g", "c1", ⟨0, 0⟩, ⟨0, "0-0"⟩, ⟨1, 0, "0-0"⟩⟩⟩

def consumerB1 : Consumer :=
  ⟨⟨"my-stream", "g", "c1", ⟨0, 0⟩, ⟨0, "0-0"⟩, ⟨1, 0, "7-7"⟩⟩⟩

def consumerB2 : Consumer :=
  ⟨⟨"my-stream", "g", "c1", ⟨0, 0⟩, ⟨0, "0-0"⟩, ⟨1, 0, "1-1"⟩⟩⟩

/-- A reply model whose key-existence probe fails with a transport error. -/
def connKeyErr : Conn :=
  { connEmpty with key_exists := fun _ => .error ⟨ErrorKind.IoError, "connection timed out"⟩ }

/-- A reply model whose group creation fails with the BUSYGROUP signal. -/
def connBusy : Conn :=
  { connEmpty with
    xgroup_create := fun _ _ _ =>
      .error ⟨ErrorKind.ResponseError, "BUSYGROUP Consumer Group name already exists"⟩ }

/-- A modelled server whose PEL holds one entry owned by `my-consumer`. -/
def server1 : ServerState :=
  ⟨[⟨"my-stream", "my-group", "my-consumer", "1-0", 100, 1⟩]⟩

/-! ### C4, C8, C9 -/

/-- C4: a count of 0 makes each phase verb return an empty batch (with
cursor `0-0` where one is returned) and issue no command; with all three
configured counts 0, `consume` returns an empty `NotFound` reply with an
empty command trace (no server round-trip), only resetting both stored
cursors to `0-0`. -/
theorem zero_count_skips_phases (conn : Conn) (c : Consumer) (k g n cur : String)
    (blk mit : Nat)
    (h1 : c.config.read_new_messages_options.count = 0)
    (h2 : c.config.read_pending_messages_options.count = 0)
    (h3 : c.config.claim_messages_options.count = 0) :
    read_new_messages conn k g n 0 blk = ([], .ok [])
    ∧ read_pending_messages conn k g n cur 0 = ([], .ok ([], BEGINNING_OF_TIME_ID))
    ∧ claim_pending_messages conn k g n mit cur 0 = ([], .ok ([], BEGINNING_OF_TIME_ID))
    ∧ c.consume conn = ([], .ok (⟨[], MessagesKind.NotFound⟩,
        (c.update_latest_pending_message_id BEGINNING_OF_TIME_ID).update_next_id_to_claim
          BEGINNING_OF_TIME_ID)) := by
  refine ⟨rfl, rfl, rfl, ?_⟩
  simp [Consumer.consume, phaseN, phaseP, phaseC, read_new_messages, read_pending_messages,
    claim_pending_messages, Consumer.update_latest_pending_message_id, h1, h2, h3]

/-- C4 witness: the theorem applied to the all-zero-count consumer. -/
theorem zero_count_skips_phases_witness :
    consumer0.consume connEmpty = ([], .ok (⟨[], MessagesKind.NotFound⟩,
      ⟨⟨"my-stream", "my-group", "my-consumer", ⟨0, 5⟩, ⟨0, "0-0"⟩, ⟨0, 7, "0-0"⟩⟩⟩)) :=
  (zero_count_skips_phases connEmpty consumer0 "k" "g" "n" "c" 1 2 rfl rfl rfl).2.2.2

/-- C8: `create_consumer_group` returns `Ok(true)` on a successful server
reply, normalizes a BUSYGROUP-signalled error to `Ok(false)`, and
propagates any other error unchanged. -/
theorem create_group_busygroup_normalized (conn : Conn) (k g sid : String) :
    (∀ v, conn.xgroup_create k g sid = .ok v →
      (create_consumer_group conn k g sid).2 = .ok true)
    ∧ (∀ e, conn.xgroup_create k g sid = .error e →
        strContains e.toStr "BUSYGROUP" = true →
        (create_consumer_group conn k g sid).2 = .ok false)
    ∧ (∀ e, conn.xgroup_create k g sid = .error e →
        strContains e.toStr "BUSYGROUP" = false →
        (create_consumer_group conn k g sid).2 = .error e) := by
  refine ⟨fun v h => by simp [create_consumer_group, h],
    fun e h hb => by simp [create_consumer_group, h, hb],
    fun e h hb => by simp [create_consumer_group, h, hb]⟩

/-- C8 witness: BUSYGROUP normalization at a concrete connection. -/
theorem create_group_busygroup_normalized_witness :
    (create_consumer_group connBusy "my-key" "my-group" "0-0").2 = .ok false :=
  (create_group_busygroup_normalized connBusy "my-key" "my-group" "0-0").2.1
    ⟨ErrorKind.ResponseError, "BUSYGROUP Consumer Group name already exists"⟩ rfl (by decide)

/-- C9 counterexample: when the key-existence query fails with a transport
error, `verify_if_stream_exists` does NOT return that error unchanged: it
returns a locally synthesized ClientError instead. -/
theorem verify_stream_error_counterexample :
    connKeyErr.key_exists "my-stream" = .error ⟨ErrorKind.IoError, "connection timed out"⟩
    ∧ (verify_if_stream_exists connKeyErr "my-stream").2
        = .error ⟨ErrorKind.ClientError, "Error verifying if stream exists"⟩
    ∧ (verify_if_stream_exists connKeyErr "my-stream").2
        ≠ .error ⟨ErrorKind.IoError, "connection timed out"⟩ := by
  refine ⟨rfl, rfl, ?_⟩
  decide

/-- C9 amended: when the key-existence query fails, the stream-existence
check fails too, but with the locally synthesized ClientError
"Error verifying if stream exists" in place of the underlying error. -/
theorem verify_stream_error_synthesized (conn : Conn) (key : String) (e : RedisError)
    (h : conn.key_exists key = .error e) :
    verify_if_stream_exists conn key = ([Command.key_exists key],
      .error ⟨ErrorKind.ClientError, "Error verifying if stream exists"⟩) := by
  simp [verify_if_stream_exists, h]

/-- C9 witness: the amended theorem applied to the failing connection. -/
theorem verify_stream_error_synthesized_witness :
    verify_if_stream_exists connKeyErr "my-stream" = ([Command.key_exists "my-stream"],
      .error ⟨ErrorKind.ClientError, "Error verifying if stream exists"⟩) :=
  verify_stream_error_synthesized connKeyErr "my-stream"
    ⟨ErrorKind.IoError, "connection timed out"⟩ rfl

/-! ### C1, C2, C3, C5, C10 -/

/-- C1: a successful `consume` attempts the three phases in the fixed
order new / pending-self / claim-from-others, returns the first phase's
batch (tagged New, Pending or Claimed) as soon as that phase yields a
non-empty batch without running the later phases (the issued-command
trace stops at that phase), and returns an empty batch tagged NotFound
when all three phases yielded empty batches. -/
theorem consume_three_phase_early_return (c : Consumer) (conn : Conn)
    (tr : List Command) (reply : ConsumeMessagesReply) (c' : Consumer)
    (h : c.consume conn = (tr, .ok (reply, c'))) :
    ConsumePhaseSpec c conn tr reply c' :=
  consume_cases h

/-- C1 witness: the all-empty reply model realizes the NotFound case. -/
theorem consume_three_phase_early_return_witness :
    consumer1.consume connEmpty
      = ([Command.xreadgroup_new "my-stream" "my-group" "my-consumer" 1 0,
          Command.xreadgroup_from "my-stream" "my-group" "my-consumer" "0-0" 1,
          Command.xautoclaim "my-stream" "my-group" "my-consumer" 0 "0-0" 1],
          .ok (⟨[], MessagesKind.NotFound⟩, consumer1))
    ∧ ConsumePhaseSpec consumer1 connEmpty
        [Command.xreadgroup_new "my-stream" "my-group" "my-consumer" 1 0,
          Command.xreadgroup_from "my-stream" "my-group" "my-consumer" "0-0" 1,
          Command.xautoclaim "my-stream" "my-group" "my-consumer" 0 "0-0" 1]
        ⟨[], MessagesKind.NotFound⟩ consumer1 :=
  ⟨by decide, consume_three_phase_early_return consumer1 connEmpty
    [Command.xreadgroup_new "my-stream" "my-group" "my-consumer" 1 0,
      Command.xreadgroup_from "my-stream" "my-group" "my-consumer" "0-0" 1,
      Command.xautoclaim "my-stream" "my-group" "my-consumer" 0 "0-0" 1]
    ⟨[], MessagesKind.NotFound⟩ consumer1 (by decide)⟩

/-- C2: after a successful `consume` in which Phase P actually ran
(pending count > 0 and Phase N returned empty), the stored pending cursor
equals the cursor returned by Phase P, which is the identifier of the
last entry of the pending batch when that batch is non-empty and `0-0`
when it is empty — whether or not the call returned early with the
Pending tag. -/
theorem pending_cursor_tracks_phaseP (c : Consumer) (conn : Conn)
    (tr : List Command) (reply : ConsumeMessagesReply) (c' : Consumer)
    (_hcnt : 0 < c.config.read_pending_messages_options.count)
    (hN : (phaseN c conn).2 = .ok [])
    (h : c.consume conn = (tr, .ok (reply, c'))) :
    ∃ batchP lp, (phaseP c conn).2 = .ok (batchP, lp) ∧
      c'.config.read_pending_messages_options.latest_pending_message_id = lp ∧
      ((batchP = [] ∧ lp = BEGINNING_OF_TIME_ID) ∨
        ∃ last, batchP.getLast? = some last ∧ lp = last.id) := by
  rcases consume_cases h with ⟨b, hN', hne, _⟩ | ⟨b, lp, _, hP, hne, _, _, hc⟩ |
    ⟨lp, b, nc, _, hP, _, _, _, _, hc⟩ | ⟨lp, nc, _, hP, _, _, _, hc⟩
  · rw [hN] at hN'
    simp only [Except.ok.injEq] at hN'
    exact absurd hN'.symm hne
  · exact ⟨b, lp, hP, by rw [hc]; rfl, (read_pending_messages_ok hP).2⟩
  · exact ⟨[], lp, hP, by rw [hc]; rfl, (read_pending_messages_ok hP).2⟩
  · exact ⟨[], lp, hP, by rw [hc]; rfl, (read_pending_messages_ok hP).2⟩

/-- C2 witness: the theorem applied to a consumer whose Phase P ran
against the all-empty reply model. -/
theorem pending_cursor_tracks_phaseP_witness :
    0 < consumer1.config.read_pending_messages_options.count
    ∧ (phaseN consumer1 connEmpty).2 = .ok []
    ∧ ∃ batchP lp, (phaseP consumer1 connEmpty).2 = .ok (batchP, lp) ∧
        consumer1.config.read_pending_messages_options.latest_pending_message_id = lp ∧
        ((batchP = [] ∧ lp = BEGINNING_OF_TIME_ID) ∨
          ∃ last, batchP.getLast? = some last ∧ lp = last.id) :=
  ⟨by decide, by decide,
    pending_cursor_tracks_phaseP consumer1 connEmpty
      [Command.xreadgroup_new "my-stream" "my-group" "my-consumer" 1 0,
        Command.xreadgroup_from "my-stream" "my-group" "my-consumer" "0-0" 1,
        Command.xautoclaim "my-stream" "my-group" "my-consumer" 0 "0-0" 1]
      ⟨[], MessagesKind.NotFound⟩ consumer1 (by decide) (by decide) (by decide)⟩

/-- C3 counterexample: the code does not make the cursors monotone.  With
`connBackward`, two successful Pending consume calls move the pending
cursor from `5-5` back to `2-2` (not a reset to `0-0`), and two
successful NotFound consume calls move the claim cursor from `7-7` back
to `1-1`, strictly backward in stream-identifier order. -/
theorem cursor_monotonicity_counterexample :
    ((consumerA0.consume connBackward).2
        = .ok (⟨[⟨"5-5", []⟩], MessagesKind.Pending⟩, consumerA1)
      ∧ (consumerA1.consume connBackward).2
        = .ok (⟨[⟨"2-2", []⟩], MessagesKind.Pending⟩, consumerA2)
      ∧ consumerA1.config.read_pending_messages_options.latest_pending_message_id = "5-5"
      ∧ consumerA2.config.read_pending_messages_options.latest_pending_message_id = "2-2"
      ∧ idLt "2-2" "5-5" = true ∧ ("2-2" : String) ≠ "0-0")
    ∧ ((consumerB0.consume connBackward).2
        = .ok (⟨[], MessagesKind.NotFound⟩, consumerB1)
      ∧ (consumerB1.consume connBackward).2
        = .ok (⟨[], MessagesKind.NotFound⟩, consumerB2)
      ∧ consumerB1.config.claim_messages_options.next_id_to_claim = "7-7"
      ∧ consumerB2.config.claim_messages_options.next_id_to_claim = "1-1"
      ∧ idLt "1-1" "7-7" = true) := by
  decide

/-- The cursor transitions a successful `consume` can make: the pending
cursor is either untouched (Phase N won) or set to exactly the cursor
Phase P returned (last id of a non-empty batch, `0-0` on an empty one);
the claim cursor is either untouched or set to exactly the next-scan
cursor the server returned.  No monotonicity is imposed by the code. -/
def CursorUpdateSpec (c : Consumer) (conn : Conn) (c' : Consumer) : Prop :=
  ((∃ batchP lp, (phaseP c conn).2 = .ok (batchP, lp) ∧
      c'.config.read_pending_messages_options.latest_pending_message_id = lp ∧
      ((batchP = [] ∧ lp = BEGINNING_OF_TIME_ID) ∨
        ∃ last, batchP.getLast? = some last ∧ lp = last.id))
    ∨ c'.config.read_pending_messages_options.latest_pending_message_id
        = c.config.read_pending_messages_options.latest_pending_message_id)
  ∧ ((∃ batchC nc, (phaseC c conn).2 = .ok (batchC, nc) ∧
      c'.config.claim_messages_options.next_id_to_claim = nc)
    ∨ c'.config.claim_messages_options.next_id_to_claim
        = c.config.claim_messages_options.next_id_to_claim)

/-- C3 amended: across successful `consume` calls the cursors change only
to the values the phase verbs return — the pending cursor to the last id
of a non-empty Phase-P batch or to `0-0` on an empty one, the claim
cursor to the server's next-scan cursor; the code imposes no
monotonicity, so the cursors are non-decreasing only when the server's
returned cursors are. -/
theorem cursor_updates_characterization (c : Consumer) (conn : Conn)
    (tr : List Command) (reply : ConsumeMessagesReply) (c' : Consumer)
    (h : c.consume conn = (tr, .ok (reply, c'))) :
    CursorUpdateSpec c conn c' := by
  rcases consume_cases h with ⟨b, hN, hne, _, _, hc⟩ | ⟨b, lp, hN, hP, hne, _, _, hc⟩ |
    ⟨lp, b, nc, hN, hP, hC, hne, _, _, hc⟩ | ⟨lp, nc, hN, hP, hC, _, _, hc⟩
  · exact ⟨Or.inr (by rw [hc]), Or.inr (by rw [hc])⟩
  · exact ⟨Or.inl ⟨b, lp, hP, by rw [hc]; rfl, (read_pending_messages_ok hP).2⟩,
      Or.inr (by rw [hc]; rfl)⟩
  · exact ⟨Or.inl ⟨[], lp, hP, by rw [hc]; rfl, (read_pending_messages_ok hP).2⟩,
      Or.inl ⟨b, nc, hC, by rw [hc]; rfl⟩⟩
  · exact ⟨Or.inl ⟨[], lp, hP, by rw [hc]; rfl, (read_pending_messages_ok hP).2⟩,
      Or.inl ⟨[], nc, hC, by rw [hc]; rfl⟩⟩

/-- C3 witness: the amended theorem applied to a concrete successful
consume call. -/
theorem cursor_updates_characterization_witness :
    CursorUpdateSpec consumer1 connEmpty consumer1 :=
  cursor_updates_characterization consumer1 connEmpty
    [Command.xreadgroup_new "my-stream" "my-group" "my-consumer" 1 0,
      Command.xreadgroup_from "my-stream" "my-group" "my-consumer" "0-0" 1,
      Command.xautoclaim "my-stream" "my-group" "my-consumer" 0 "0-0" 1]
    ⟨[], MessagesKind.NotFound⟩ consumer1 (by decide)

/-- Every entry of a consume reply is accounted for by the phase that
produced it, under the configured stream's key: a New or Pending entry is
listed under a reply group whose key equals the configured stream name
(entries under any other key were dropped), and a Claimed batch is
exactly the claimed list of the auto-claim reply for the configured
stream. -/
def BatchFromConfiguredStream (c : Consumer) (conn : Conn)
    (reply : ConsumeMessagesReply) : Prop :=
  ∀ sid ∈ reply.messages,
    (reply.are_new = true →
      ∃ rr, conn.xread_new c.config.stream_name c.config.group_name c.config.consumer_name
          c.config.read_new_messages_options.count c.config.read_new_messages_options.block
        = .ok rr ∧ ∃ g ∈ rr.keys, g.key = c.config.stream_name ∧ sid ∈ g.ids)
    ∧ (reply.are_pending = true →
      ∃ rr, conn.xread_from c.config.stream_name c.config.group_name c.config.consumer_name
          c.config.read_pending_messages_options.latest_pending_message_id
          c.config.read_pending_messages_options.count
        = .ok rr ∧ ∃ g ∈ rr.keys, g.key = c.config.stream_name ∧ sid ∈ g.ids)
    ∧ (reply.were_claimed = true →
      ∃ ar, conn.xautoclaim c.config.stream_name c.config.group_name c.config.consumer_name
          c.config.claim_messages_options.min_idle_time
          c.config.claim_messages_options.next_id_to_claim
          c.config.claim_messages_options.count
        = .ok ar ∧ sid ∈ ar.claimed)

/-- C5: a successful `consume` never returns an entry belonging to a
stream other than the configured one — every returned entry traces back,
under the configured stream key, to the reply of the phase that won. -/
theorem consume_only_configured_stream (c : Consumer) (conn : Conn)
    (tr : List Command) (reply : ConsumeMessagesReply) (c' : Consumer)
    (h : c.consume conn = (tr, .ok (reply, c'))) :
    BatchFromConfiguredStream c conn reply := by
  rcases consume_cases h with ⟨b, hN, hne, _, hr, _⟩ | ⟨b, lp, hN, hP, hne, _, hr, _⟩ |
    ⟨lp, b, nc, hN, hP, hC, hne, _, hr, _⟩ | ⟨lp, nc, hN, hP, hC, _, hr, _⟩ <;>
    subst hr <;> intro sid hsid
  · refine ⟨fun _ => ?_, fun habs => ?_, fun habs => ?_⟩
    · rcases read_new_messages_ok hN with ⟨_, hb⟩ | ⟨rr, hx, hb⟩
      · subst hb; simp at hsid
      · subst hb
        exact ⟨rr, hx, mem_unwrap_by_key hsid⟩
    · simp [ConsumeMessagesReply.are_pending, MessagesKind.are_pending] at habs
    · simp [ConsumeMessagesReply.were_claimed, MessagesKind.were_claimed] at habs
  · refine ⟨fun habs => ?_, fun _ => ?_, fun habs => ?_⟩
    · simp [ConsumeMessagesReply.are_new, MessagesKind.are_new] at habs
    · rcases (read_pending_messages_ok hP).1 with ⟨_, hb⟩ | ⟨rr, hx, hb⟩
      · subst hb; simp at hsid
      · subst hb
        exact ⟨rr, hx, mem_unwrap_by_key hsid⟩
    · simp [ConsumeMessagesReply.were_claimed, MessagesKind.were_claimed] at habs
  · refine ⟨fun habs => ?_, fun habs => ?_, fun _ => ?_⟩
    · simp [ConsumeMessagesReply.are_new, MessagesKind.are_new] at habs
    · simp [ConsumeMessagesReply.are_pending, MessagesKind.are_pending] at habs
    · rcases claim_pending_messages_ok hC with ⟨_, hb, _⟩ | ⟨ar, hx, hb, _⟩
      · subst hb; simp at hsid
      · subst hb
        exact ⟨ar, hx, hsid⟩
  · simp at hsid

/-- C5 witness: a consume call returning a New batch that the reply model
listed under both the configured key and a foreign key. -/
theorem consume_only_configured_stream_witness :
    BatchFromConfiguredStream consumer1 connNew ⟨[⟨"1-0", [("code", "1")]⟩], MessagesKind.New⟩ :=
  consume_only_configured_stream consumer1 connNew
    [Command.xreadgroup_new "my-stream" "my-group" "my-consumer" 1 0]
    ⟨[⟨"1-0", [("code", "1")]⟩], MessagesKind.New⟩ consumer1 (by decide)

/-- C10: every reply of a successful `consume` is tag-consistent — its
kind is NotFound iff its batch is empty, and exactly one of the four tag
predicates holds. -/
theorem consume_reply_tag_consistent (c : Consumer) (conn : Conn)
    (tr : List Command) (reply : ConsumeMessagesReply) (c' : Consumer)
    (h : c.consume conn = (tr, .ok (reply, c'))) :
    (reply.not_found = true ↔ reply.messages = [])
    ∧ [reply.are_new, reply.are_pending, reply.were_claimed, reply.not_found].count true
        = 1 := by
  rcases consume_cases h with ⟨b, _, hne, _, hr, _⟩ | ⟨b, lp, _, _, hne, _, hr, _⟩ |
    ⟨lp, b, nc, _, _, _, hne, _, hr, _⟩ | ⟨lp, nc, _, _, _, _, hr, _⟩ <;> subst hr
  · simp [ConsumeMessagesReply.not_found, ConsumeMessagesReply.are_new,
      ConsumeMessagesReply.are_pending, ConsumeMessagesReply.were_claimed,
      MessagesKind.not_found, MessagesKind.are_new, MessagesKind.are_pending,
      MessagesKind.were_claimed, List.count_cons, hne]
  · simp [ConsumeMessagesReply.not_found, ConsumeMessagesReply.are_new,
      ConsumeMessagesReply.are_pending, ConsumeMessagesReply.were_claimed,
      MessagesKind.not_found, MessagesKind.are_new, MessagesKind.are_pending,
      MessagesKind.were_claimed, List.count_cons, hne]
  · simp [ConsumeMessagesReply.not_found, ConsumeMessagesReply.are_new,
      ConsumeMessagesReply.are_pending, ConsumeMessagesReply.were_claimed,
      MessagesKind.not_found, MessagesKind.are_new, MessagesKind.are_pending,
      MessagesKind.were_claimed, List.count_cons, hne]
  · simp [ConsumeMessagesReply.not_found, ConsumeMessagesReply.are_new,
      ConsumeMessagesReply.are_pending, ConsumeMessagesReply.were_claimed,
      MessagesKind.not_found, MessagesKind.are_new, MessagesKind.are_pending,
      MessagesKind.were_claimed, List.count_cons]

/-! ### C6, C7 -/

theorem length_filter_le_one {α : Type} {l : List α} {p : α → Bool}
    (h : l.Pairwise (fun a b => ¬(p a = true ∧ p b = true))) :
    (l.filter p).length ≤ 1 := by
  induction l with
  | nil => simp
  | cons a l ih =>
    rw [List.pairwise_cons] at h
    by_cases hp : p a
    · have hnil : l.filter p = [] :=
        List.filter_eq_nil_iff.mpr (fun x hx hpx => (h.1 x hx) ⟨hp, hpx⟩)
      simp [List.filter_cons, hp, hnil]
    · simpa [List.filter_cons, hp] using ih h.2

theorem idPairLe_antisymm {a b : Nat × Nat} (h₁ : idPairLe a b = true)
    (h₂ : idPairLe b a = true) : a = b := by
  simp only [idPairLe, decide_eq_true_eq] at h₁ h₂
  obtain ⟨a1, a2⟩ := a
  obtain ⟨b1, b2⟩ := b
  simp only [Prod.mk.injEq]
  omega

/-- Membership in the matching filter means the ack predicate holds. -/
theorem pelAckMatch_spec {k g : String} {v : Nat × Nat} {r : PelRec}
    (h : pelAckMatch k g v r = true) :
    r.key = k ∧ r.group = g ∧ parseStreamId r.id = some v := by
  simpa [pelAckMatch] using h

/-- C7: against the PEL server model, `ack` succeeds with `true` exactly
when the server removed exactly one pending entry (for a well-formed PEL),
and a second `ack` of the same id on the post-ack state returns `false`,
never an error: two successive acks return `(true, false)` and never
`(true, true)`. -/
theorem ack_exactly_one_and_idempotent (s : ServerState) (c : Consumer) (id : String) :
    (s.wf →
      ((c.ack (connOfServer s) id).2 = .ok ⟨true⟩
        ↔ serverAckCount s c.config.stream_name c.config.group_name id = 1))
    ∧ ((c.ack (connOfServer s) id).2 = .ok ⟨true⟩ →
        (c.ack (connOfServer
          (serverAfterAck s c.config.stream_name c.config.group_name id)) id).2
          = .ok ⟨false⟩) := by
  constructor
  · intro hwf
    rcases hv : parseStreamId id with _ | v
    · simp [Consumer.ack, ack, connOfServer, serverXackReply, serverAckCount, hv]
    · have hle : (s.pel.filter
          (pelAckMatch c.config.stream_name c.config.group_name v)).length ≤ 1 := by
        refine length_filter_le_one (hwf.2.imp ?_)
        intro r₁ r₂ hne hpp
        obtain ⟨hk₁, hg₁, hi₁⟩ := pelAckMatch_spec hpp.1
        obtain ⟨hk₂, hg₂, hi₂⟩ := pelAckMatch_spec hpp.2
        exact hne ⟨hk₁.trans hk₂.symm, hg₁.trans hg₂.symm, hi₁.trans hi₂.symm⟩
      simp only [Consumer.ack, ack, connOfServer, serverXackReply, serverAckCount, hv]
      constructor
      · intro h
        simp only [Except.ok.injEq, AckMessageReply.mk.injEq, decide_eq_true_eq] at h
        omega
      · intro h
        simp only [h]
        norm_num
  · intro h
    rcases hv : parseStreamId id with _ | v
    · simp [Consumer.ack, ack, connOfServer, serverXackReply, hv] at h
    · simp only [Consumer.ack, ack, connOfServer, serverXackReply, serverAfterAck,
        serverAckCount, hv]
      have : (s.pel.filter (fun r =>
          !(pelAckMatch c.config.stream_name c.config.group_name v r))).filter
            (pelAckMatch c.config.stream_name c.config.group_name v) = [] := by
        refine List.filter_eq_nil_iff.mpr ?_
        intro x hx
        have := (List.mem_filter.mp hx).2
        simp only [Bool.not_eq_true'] at this
        simp [this]
      simp [this]

/-- C7 witness: the one-entry server is well-formed, and ack on it
returns `true` exactly because one entry is removed. -/
theorem ack_exactly_one_and_idempotent_witness :
    server1.wf
    ∧ ((consumer1.ack (connOfServer server1) "1-0").2 = .ok ⟨true⟩
        ↔ serverAckCount server1 "my-stream" "my-group" "1-0" = 1) :=
  ⟨by unfold ServerState.wf; decide,
    (ack_exactly_one_and_idempotent server1 consumer1 "1-0").1
      (by unfold ServerState.wf; decide)⟩

/-- C6: against the PEL server model, if `ack(id)` returns `true`, a
subsequent ownership check for the same id (on the post-ack server state,
with no intervening redelivery) succeeds and reports that the entry no
longer belongs to this consumer. -/
theorem ack_true_then_not_mine (s : ServerState) (c : Consumer) (id : String)
    (h : (c.ack (connOfServer s) id).2 = .ok ⟨true⟩) :
    ∃ r, (c.is_still_mine (connOfServer
        (serverAfterAck s c.config.stream_name c.config.group_name id)) id).2 = .ok r
      ∧ r.belongs_to_me = false := by
  rcases hv : parseStreamId id with _ | v
  · simp [Consumer.ack, ack, connOfServer, serverXackReply, hv] at h
  · refine ⟨⟨false, none, none⟩, ?_, rfl⟩
    simp only [Consumer.is_still_mine, is_still_mine, connOfServer, serverXpendingReply,
      serverAfterAck, hv]
    have hnil : ((ServerState.mk (s.pel.filter (fun r =>
        !(pelAckMatch c.config.stream_name c.config.group_name v r)))).pel.filter
          (pelInRange c.config.stream_name c.config.group_name c.config.consumer_name v v))
        = [] := by
      refine List.filter_eq_nil_iff.mpr ?_
      intro x hx hin
      have hnm := (List.mem_filter.mp hx).2
      simp only [Bool.not_eq_true'] at hnm
      simp only [pelInRange, Bool.and_eq_true, decide_eq_true_eq] at hin
      obtain ⟨⟨hk, hg, _⟩, hrange⟩ := hin
      rcases hw : parseStreamId x.id with _ | w <;> rw [hw] at hrange
      · simp at hrange
      · simp only [Bool.and_eq_true] at hrange
        have hwv : v = w := idPairLe_antisymm hrange.1 hrange.2
        have : pelAckMatch c.config.stream_name c.config.group_name v x = true := by
          simp [pelAckMatch, hk, hg, hw, hwv]
        simp [this] at hnm
    simp [hnil]

/-- C6 witness: the theorem applied to the one-entry server. -/
theorem ack_true_then_not_mine_witness :
    ∃ r, (consumer1.is_still_mine (connOfServer
        (serverAfterAck server1 "my-stream" "my-group" "1-0")) "1-0").2 = .ok r
      ∧ r.belongs_to_me = false :=
  ack_true_then_not_mine server1 consumer1 "1-0" (by decide)

/-- C10 witness: tag consistency at a concrete successful consume. -/
theorem consume_reply_tag_consistent_witness :
    ((⟨[], MessagesKind.NotFound⟩ : ConsumeMessagesReply).not_found = true
      ↔ (⟨[], MessagesKind.NotFound⟩ : ConsumeMessagesReply).messages = [])
    ∧ [(⟨[], MessagesKind.NotFound⟩ : ConsumeMessagesReply).are_new,
        (⟨[], MessagesKind.NotFound⟩ : ConsumeMessagesReply).are_pending,
        (⟨[], MessagesKind.NotFound⟩ : ConsumeMessagesReply).were_claimed,
        (⟨[], MessagesKind.NotFound⟩ : ConsumeMessagesReply).not_found].count true = 1 :=
  consume_reply_tag_consistent consumer1 connEmpty
    [Command.xreadgroup_new "my-stream" "my-group" "my-consumer" 1 0,
      Command.xreadgroup_from "my-stream" "my-group" "my-consumer" "0-0" 1,
      Command.xautoclaim "my-stream" "my-group" "my-consumer" 0 "0-0" 1]
    ⟨[], MessagesKind.NotFound⟩ consumer1 (by decide)

end Redsumer
